import Mathlib

/-!
Shallow embedding of `src/src/agent/tool_agent.py` (a langgraph research agent)
together with theorems checking the specification's claims about it.

External collaborators (the LLM client, the Tavily search provider, the
WikipediaLoader and the python REPL) are opaque capabilities; they enter the
embedding as function parameters.  langgraph prebuilt pieces that the source
wires in but whose code is not part of this repository (`add_messages`,
`tools_condition`, `ToolNode`, the `StateGraph` runtime) are modelled from the
specification's description of them and from their documented behaviour; each
such definition says so in its doc comment.  Every other definition is a direct
transcription of the cited source lines.
-/

namespace ToolAgent

/-- one structured tool-call request carried by an LLM reply (a langchain
message `tool_calls` entry), reduced to the tool name plus the single query
string of the declared `SearchQuery` argument schema (lines 29-32). -/
structure ToolCall where
  name : String
  query : String
  deriving DecidableEq, Repr

/-- one entry of the conversational `messages` channel (line 19): a langchain
message, reduced to the fields the control flow reads — an identifier
(langchain assigns a fresh uuid to every newly inserted message; modelled as a
`Nat`), the text content, and the structured tool-call requests the message
carries (empty for human and tool-result turns). -/
structure Msg where
  id : Nat
  content : String
  toolCalls : List ToolCall
  deriving DecidableEq, Repr

/-- one entry of the `project_plan` accumulator (line 25).  The declared
schema is `list[str]`, so entries are meant to be strings (`str`); line 85
however stores the value `[formatted_search_docs]`, whose single entry is
itself a *list* of strings.  Being dynamically typed, the python value space
admits both shapes, so the embedding keeps both as variants. -/
inductive PlanEntry
  | str (s : String)
  | nested (docs : List String)
  deriving DecidableEq, Repr

/-- one document returned by an external search capability (Tavily result or
WikipediaLoader article): a source label (url) and its text content, the two
fields the formatting code reads (lines 61, 81). -/
structure WebDoc where
  url : String
  content : String
  deriving DecidableEq, Repr

/-- the structured-output argument schema of the tools (lines 29-32): a single
field named `query`. -/
structure SearchQuery where
  query : String
  deriving DecidableEq, Repr

/-- python attribute lookup on a `SearchQuery` pydantic model: only the
declared field name `query` resolves; every other attribute name raises
`AttributeError`, modelled as `none`. -/
def SearchQuery.getattrOpt (sq : SearchQuery) (attrName : String) : Option String :=
  if attrName = "query" then some sq.query else none

/-- the shared conversation state `PlanningState` (lines 15-26), extended with
the `result` channel that the graph additionally carries because
`output_schema=ResearchState` (lines 35-38, 109-111) declares it and the
`research_agent` node writes it (line 106). -/
structure PlanningState where
  project_description : String
  messages : List Msg
  project_research : String
  project_plan : List PlanEntry
  final_report : String
  result : List Msg
  deriving DecidableEq, Repr

/-- the graph output schema `ResearchState` (lines 35-38): the single channel
`result`.  The source annotates it as `str` while the `research_agent` node
writes a one-element list of messages (line 106); the embedding types the
channel by the value actually written. -/
structure ResearchState where
  result : List Msg
  deriving DecidableEq, Repr

/-- the instruction preamble string (lines 42-44), transcribed verbatim from
the triple-quoted source literal, trailing spaces included. -/
def SEARCH_INSTRUCTIONS : String :=
  "You are a helpful assistant that searches for information. \nWhen a user asks a question that requires current information or web search, \nyou MUST use the search_web tool to find the answer. Always search for relevant information before responding."

/-- the instruction preamble as the message the tools prepend to the history
when they invoke the structured LLM (lines 54-56, 73-75). -/
def instrMsg : Msg :=
  { id := 0, content := SEARCH_INSTRUCTIONS, toolCalls := [] }

/-- an observable external call made while a step runs; the embedding of each
step returns, besides its value, the ordered list of external calls its source
body performs (one event per call site, in program order). -/
inductive CallEvent
  | llmStructured (prompt : List Msg)
  | llmTools (prompt : List Msg)
  | tavily (query : String) (maxResults : Nat)
  | wikipedia (query : String) (maxDocs : Nat)
  deriving DecidableEq, Repr

/-- does the event execute a search capability (rather than call the LLM)? -/
def isToolEvent : CallEvent → Bool
  | CallEvent.tavily _ _ => true
  | CallEvent.wikipedia _ _ => true
  | _ => false

/-- is the event a structured-output LLM invocation? -/
def isStructuredLLMCall : CallEvent → Bool
  | CallEvent.llmStructured _ => true
  | _ => false

/-- the f-string of `search_web` (line 61), transcribed verbatim: note the
stray literal `messages` between the closing quote of the href attribute and
the `/>`, and the closing delimiter `<Document>` (not `</Document>`). -/
def formatWebDoc (url content : String) : String :=
  "<Document href=\x27" ++ url ++ "\x27messages/>\n" ++ content ++ "\n<Document>"

/-- the f-string of `search_wikipedia` (line 81), transcribed verbatim: href
attribute closed by `\x27/>`, closing delimiter the literal `<Document>`. -/
def formatWikipediaDoc (url content : String) : String :=
  "<Document href=\x27" ++ url ++ "\x27/>\n" ++ content ++ "\n<Document>"

/-- the document-block shape the specification claims for every tool result:
`<Document href=\x27{sourceLabel}\x27/>\n{content}\n<Document>`.  This
definition follows the specification words, to be compared with the two
formats transcribed from the source. -/
def claimedDocFormat (sourceLabel content : String) : String :=
  "<Document href=\x27" ++ sourceLabel ++ "\x27/>\n" ++ content ++ "\n<Document>"

/-- the `search_web` tool (lines 49-65).  `oracle` is the structured-output
LLM client (`llm_with_tools.with_structured_output(SearchQuery)`), `tavily`
the external `TavilySearch(max_results=3)` provider.  The returned value pairs
the python return `\x7b"messages": state["messages"] + formatted_search_docs\x7d`
(the untouched prior messages plus the formatted document strings) with the
ordered external calls the body performs: one structured LLM invocation on
`[SEARCH_INSTRUCTIONS] + state["messages"]`, then one Tavily search on the
derived `search_query.query`. -/
def search_web (oracle : List Msg → SearchQuery) (tavily : String → List WebDoc)
    (s : PlanningState) : (List Msg × List String) × List CallEvent :=
  let search_query := oracle (instrMsg :: s.messages)
  let search_docs := tavily search_query.query
  let formatted_search_docs := search_docs.map (fun d => formatWebDoc d.url d.content)
  ((s.messages, formatted_search_docs),
   [CallEvent.llmStructured (instrMsg :: s.messages),
    CallEvent.tavily search_query.query 3])

/-- a python runtime error that aborts a step. -/
inductive PyError
  | attributeError (objType attrName : String)
  deriving DecidableEq, Repr

/-- the `search_wikipedia` tool (lines 68-86).  It first invokes the
structured LLM on `[SEARCH_INSTRUCTIONS] + state["messages"]` (lines 72-75);
line 77 then reads the attribute `search_query` of the derived `SearchQuery`
value, which declares only the field `query`, so the read raises
`AttributeError` and the `WikipediaLoader` call, the formatting (lines 80-83)
and the plan assignment (line 85) are never reached.  Were the attribute read
to succeed, the loader would be called with `load_max_docs=2` and line 85 —
an attribute assignment on the dict-typed state — would itself raise, which
the unreachable branch records. -/
def search_wikipedia (oracle : List Msg → SearchQuery)
    (loader : String → Nat → List WebDoc) (s : PlanningState) :
    Except PyError (List Msg × List String) × List CallEvent :=
  let search_query := oracle (instrMsg :: s.messages)
  match search_query.getattrOpt "search_query" with
  | none =>
      (Except.error (PyError.attributeError "SearchQuery" "search_query"),
       [CallEvent.llmStructured (instrMsg :: s.messages)])
  | some q =>
      let search_docs := loader q 2
      let formatted_search_docs := search_docs.map (fun d => formatWikipediaDoc d.url d.content)
      let _ := formatted_search_docs
      (Except.error (PyError.attributeError "dict" "project_plan"),
       [CallEvent.llmStructured (instrMsg :: s.messages), CallEvent.wikipedia q 2])

/-- the assignment statement of line 85, read as written:
`state.project_plan = [formatted_search_docs]` stores a fresh one-element list
into `project_plan`, discarding whatever the field held before and bypassing
the `operator.add` reducer declared on line 25.  (At runtime the statement is
unreachable — line 77 raises first — and on the dict-typed state the attribute
assignment itself would raise; this definition embeds the state change the
statement denotes.) -/
def wikipedia_line85_assign (s : PlanningState) (formatted_search_docs : List String) :
    PlanningState :=
  { s with project_plan := [PlanEntry.nested formatted_search_docs] }

/-- the reducer declared for `project_plan` (line 25): `operator.add` on
lists, i.e. concatenation — graph-routed contributions append. -/
def project_plan_merge (old new : List PlanEntry) : List PlanEntry :=
  old ++ new

/-- the `research_agent` node (lines 100-106) with its external calls made
observable: it reads `msg_history = state["messages"]`, invokes the tool-bound
LLM once on exactly that history, and returns `\x7b"result": [result]\x7d` —
the reply is written to the `result` channel, `messages` is not updated.  The
event list records the single call site of the body. -/
def research_agent_events (llm : List Msg → Msg) (s : PlanningState) :
    PlanningState × List CallEvent :=
  let msg_history := s.messages
  let result := llm msg_history
  ({ s with result := [result] }, [CallEvent.llmTools msg_history])

/-- the `research_agent` node as the graph runs it (value part only). -/
def research_agent (llm : List Msg → Msg) (s : PlanningState) : PlanningState :=
  (research_agent_events llm s).1

/-- one merge step of langgraph's `add_messages` reducer, modelled from the
specification (the reducer is a langgraph prebuilt, not part of this
repository): an incoming message whose id matches an existing one replaces it
in place; otherwise it is appended. -/
def upsert (acc : List Msg) (m : Msg) : List Msg :=
  if acc.any (fun x => x.id == m.id) then
    acc.map (fun x => if x.id == m.id then m else x)
  else acc ++ [m]

/-- langgraph's `add_messages` reducer on the `messages` channel (line 20),
modelled from the specification: the incoming messages are merged left to
right into the existing list by `upsert`. -/
def add_messages (old new : List Msg) : List Msg :=
  new.foldl upsert old

/-- a node of the compiled graph (lines 109-123): the two added nodes plus
the END vertex that `tools_condition` may route to. -/
inductive GraphNode
  | research_agent
  | tools
  | done
  deriving DecidableEq, Repr

/-- langgraph's prebuilt `tools_condition`, wired as the conditional edge
after `research_agent` (line 117).  Modelled from the specification and the
prebuilt's documented behaviour (its code is not part of this repository): it
inspects the LAST entry of the `messages` channel of the state it receives and
routes to the `tools` node exactly when that entry carries a non-empty
tool-call list, otherwise to END.  Note it reads `state["messages"]`, not the
`result` channel that the `research_agent` node writes to.  On an empty
message list the prebuilt raises; no run modelled here reaches that case and
it is mapped to END. -/
def tools_condition (s : PlanningState) : GraphNode :=
  match s.messages.getLast? with
  | some m => if m.toolCalls.isEmpty then GraphNode.done else GraphNode.tools
  | none => GraphNode.done

/-- the names of the registered tools, in the order of the `TOOLS` list
(line 96). -/
def TOOLS_names : List String :=
  ["search_web", "search_wikipedia", "python_repl"]

/-- the diagnostic content langgraph's `ToolNode` synthesizes for a request
naming a tool that is not registered (modelled from the specification: a
"tool not found" document, produced instead of raising). -/
def diagnosticContent (c : ToolCall) : String :=
  "Error: " ++ c.name ++ " is not a valid tool, try one of [search_web, search_wikipedia, python_repl]."

/-- dispatch of one tool-call request inside `ToolNode` (modelled from the
specification): resolve the requested name against the registered tools; when
it resolves, run the capability; when it does not, synthesize the diagnostic
document — never raise. -/
def dispatchCall (rt : ToolCall → PlanningState → String) (c : ToolCall)
    (s : PlanningState) : String :=
  if TOOLS_names.contains c.name then rt c s else diagnosticContent c

/-- the largest message id in use, for minting fresh ids of tool-result
messages (langchain mints fresh uuids; the model mints successors of the
maximum). -/
def maxId (l : List Msg) : Nat :=
  l.foldl (fun a m => max a m.id) 0

/-- langgraph's prebuilt `ToolNode(TOOLS)` (line 114), modelled from the
specification: it reads the tool-call requests of the last message, dispatches
each in request order through `dispatchCall`, and appends one tool-result
message per request to the `messages` channel (fresh ids, no tool calls of
their own). -/
def toolNode (rt : ToolCall → PlanningState → String) (s : PlanningState) :
    PlanningState :=
  let calls := match s.messages.getLast? with
    | some m => m.toolCalls
    | none => []
  let results := calls.enum.map
    (fun p => Msg.mk (maxId s.messages + 1 + p.1) (dispatchCall rt p.2 s) [])
  { s with messages := s.messages ++ results }

/-- one transition of the compiled graph (edges of lines 116-118): from
`research_agent` the node function runs and `tools_condition` picks the next
vertex; from `tools` the `ToolNode` runs (one dispatch step, counted) and the
fixed edge returns to `research_agent`; END is absorbing.  The third component
counts executed dispatch steps. -/
def graphStep (llm : List Msg → Msg) (rt : ToolCall → PlanningState → String) :
    GraphNode × PlanningState × Nat → GraphNode × PlanningState × Nat
  | (GraphNode.research_agent, s, d) =>
      let s2 := research_agent llm s
      (tools_condition s2, s2, d)
  | (GraphNode.tools, s, d) => (GraphNode.research_agent, toolNode rt s, d + 1)
  | (GraphNode.done, s, d) => (GraphNode.done, s, d)

/-- n transitions of the compiled graph. -/
def runGraphN (llm : List Msg → Msg) (rt : ToolCall → PlanningState → String) :
    Nat → GraphNode × PlanningState × Nat → GraphNode × PlanningState × Nat
  | 0, p => p
  | n + 1, p => runGraphN llm rt n (graphStep llm rt p)

/-- the state the invocation of line 125-127 starts from: the seed messages,
every other channel empty. -/
def initState (seed : List Msg) : PlanningState :=
  { project_description := ""
    messages := seed
    project_research := ""
    project_plan := []
    final_report := ""
    result := [] }

/-- the output projection the graph applies on completion because of
`output_schema=ResearchState` (line 110): only the `result` channel is kept. -/
def outputProjection (s : PlanningState) : ResearchState :=
  { result := s.result }

/-- `research_agent_workflow.invoke` (lines 121-127): start at
`research_agent` on the seeded state, run the graph, project the final state
onto the output schema.  `fuel` bounds the number of transitions taken (the
graph runtime's recursion limit). -/
def invokeWorkflow (llm : List Msg → Msg) (rt : ToolCall → PlanningState → String)
    (fuel : Nat) (seed : List Msg) : ResearchState :=
  outputProjection (runGraphN llm rt fuel (GraphNode.research_agent, initState seed, 0)).2.1

/-- the seed message of the concrete invocation at line 126: a plain user
turn, no tool calls. -/
def userMsg0 : Msg :=
  { id := 1, content := "what is latest version of python", toolCalls := [] }

/-- a scripted LLM stub that returns a tool-call request on every reasoning
call (the infinite-cycling scenario of the specification). -/
def alwaysToolsLLM : List Msg → Msg :=
  fun _ => { id := 40, content := "", toolCalls := [{ name := "search_web", query := "latest python version" }] }

/-- a scripted LLM stub that returns a plain final answer. -/
def stubFinalLLM : List Msg → Msg :=
  fun _ => { id := 41, content := "Python 3.13", toolCalls := [] }

/-- a stub capability runner for registered tools. -/
def stubRunTool : ToolCall → PlanningState → String :=
  fun _ _ => "stub tool output"

/-- a concrete final state of a run: the seed message still in the history, a
plan entry accumulated, a reasoning reply on the result channel. -/
def finalStateA : PlanningState :=
  { initState [userMsg0] with
      project_plan := [PlanEntry.str "plan entry"]
      result := [stubFinalLLM [userMsg0]] }

/-- a second final state: the same result channel, but different messages and
a different plan. -/
def finalStateB : PlanningState :=
  { initState [] with result := [stubFinalLLM [userMsg0]] }

/-- a state whose plan accumulator already holds an entry, feeding the line-85
assignment. -/
def planState0 : PlanningState :=
  { initState [userMsg0] with project_plan := [PlanEntry.str "existing entry"] }

/-- C1: the claim says that with an LLM stub returning tool requests on every
reasoning call the loop ends in a distinct MAX_ITERATIONS_EXCEEDED terminal
after the configured bound of dispatch steps (bound 5 giving exactly 5
dispatches).  The graph of lines 109-123 defines no iteration guard and no
such terminal; worse, `research_agent` writes the reply to the `result`
channel, so `tools_condition` inspects the seed user message and routes to
END at once: the run below, whose LLM requests a tool on every call, finishes
in the ordinary END vertex after one reasoning step with ZERO dispatch steps
— there is no MAX_ITERATIONS_EXCEEDED variant to reach at all. -/
theorem C1_no_iteration_guard :
    (runGraphN alwaysToolsLLM stubRunTool 10
        (GraphNode.research_agent, initState [userMsg0], 0)).1 = GraphNode.done
    ∧ (runGraphN alwaysToolsLLM stubRunTool 10
        (GraphNode.research_agent, initState [userMsg0], 0)).2.2 = 0
    ∧ (alwaysToolsLLM (initState [userMsg0]).messages).toolCalls ≠ [] := by
  refine ⟨rfl, rfl, ?_⟩
  decide

/-- C2: evaluation of the two document formats transcribed from the source at
the failing input.  `search_web` (line 61) emits a stray literal `messages`
between the href attribute and the `/>`, so its block is NOT of the claimed
shape; the `search_wikipedia` block (line 81) is. -/
theorem C2_web_doc_format_diverges :
    formatWebDoc "https://example" "Python 3.13"
        = "<Document href=\x27https://example\x27messages/>\nPython 3.13\n<Document>"
    ∧ formatWebDoc "https://example" "Python 3.13"
        ≠ claimedDocFormat "https://example" "Python 3.13"
    ∧ formatWikipediaDoc "https://example" "Python 3.13"
        = claimedDocFormat "https://example" "Python 3.13" := by
  refine ⟨rfl, ?_, rfl⟩
  decide

/-- C4: the claim says routing is a pure function of the latest reasoning
output, continuing into dispatch exactly when that output carries tool
requests.  In the source the reasoning reply goes to the `result` channel
(line 106) while `tools_condition` (line 117) reads the last entry of
`messages`: below, the reasoning output requests a tool, yet the route taken
is END. -/
theorem C4_routing_ignores_reasoning_output :
    tools_condition (research_agent alwaysToolsLLM (initState [userMsg0]))
        = GraphNode.done
    ∧ (alwaysToolsLLM (initState [userMsg0]).messages).toolCalls ≠ []
    ∧ (research_agent alwaysToolsLLM (initState [userMsg0])).result
        = [alwaysToolsLLM [userMsg0]] := by
  refine ⟨rfl, ?_, rfl⟩
  decide

/-- C9: evaluation of the line-85 assignment at a state whose plan already
holds an entry: the statement stores `[formatted_search_docs]` wholesale, so
the prior entry is gone afterwards — a replacement, not the append the
`operator.add` reducer of line 25 (which does concatenate) prescribes. -/
theorem C9_plan_overwritten :
    (wikipedia_line85_assign planState0 ["doc block"]).project_plan
        = [PlanEntry.nested ["doc block"]]
    ∧ PlanEntry.str "existing entry" ∈ planState0.project_plan
    ∧ PlanEntry.str "existing entry"
        ∉ (wikipedia_line85_assign planState0 ["doc block"]).project_plan
    ∧ project_plan_merge planState0.project_plan [PlanEntry.nested ["doc block"]]
        = [PlanEntry.str "existing entry", PlanEntry.nested ["doc block"]] := by
  refine ⟨rfl, ?_, ?_, rfl⟩ <;> decide

/-- C3: the claim says the encyclopedia tool invokes the article loader with
the validated `query` field.  Line 77 instead reads the attribute
`search_query` of the `SearchQuery` value, which declares only the field
`query`: the read raises `AttributeError` on every invocation, before the
loader is ever called — the result is the same error for every loader, every
oracle and every state. -/
theorem C3_wikipedia_attribute_error (oracle : List Msg → SearchQuery)
    (loader loader2 : String → Nat → List WebDoc) (s : PlanningState) :
    (search_wikipedia oracle loader s).1
        = Except.error (PyError.attributeError "SearchQuery" "search_query")
    ∧ search_wikipedia oracle loader s = search_wikipedia oracle loader2 s
    ∧ SearchQuery.getattrOpt (oracle (instrMsg :: s.messages)) "search_query" = none := by
  refine ⟨rfl, rfl, rfl⟩

/-- C7: dispatching a request whose tool name does not resolve against the
registered tools yields the synthesized diagnostic document — for every
capability runner, i.e. without invoking any capability — and the graph edge
out of the tools node always returns to the reasoning node, so the loop
continues. -/
theorem C7_unknown_tool_soft_fail (llm : List Msg → Msg)
    (rt : ToolCall → PlanningState → String) (c : ToolCall)
    (s : PlanningState) (d : Nat)
    (h : TOOLS_names.contains c.name = false) :
    dispatchCall rt c s = diagnosticContent c
    ∧ (graphStep llm rt (GraphNode.tools, s, d)).1 = GraphNode.research_agent := by
  refine ⟨?_, rfl⟩
  unfold dispatchCall
  rw [h]
  rfl

/-- C7 witness: a request naming `made_up_tool` is dispatched to the
diagnostic document and the loop proceeds to the next reasoning call. -/
theorem C7_unknown_tool_soft_fail_witness :
    dispatchCall stubRunTool (ToolCall.mk "made_up_tool" "q") (initState [userMsg0])
        = diagnosticContent (ToolCall.mk "made_up_tool" "q")
    ∧ (graphStep stubFinalLLM stubRunTool
        (GraphNode.tools, initState [userMsg0], 0)).1 = GraphNode.research_agent :=
  C7_unknown_tool_soft_fail stubFinalLLM stubRunTool
    (ToolCall.mk "made_up_tool" "q") (initState [userMsg0]) 0 (by decide)

/-- C10: each tool derives its own query: its body performs exactly the
recorded external calls — first one structured LLM invocation whose prompt is
the instruction preamble followed by the current message history, and (for the
web tool) then one Tavily search whose query is precisely the `query` field of
the value that LLM invocation returned; the encyclopedia tool also makes the
structured LLM call (and then fails at line 77, so no search follows).  Both
bodies therefore contain at least one LLM invocation beyond the reasoning
step's, and neither takes a request-carried query at all. -/
theorem C10_tools_derive_query_via_llm (oracle : List Msg → SearchQuery)
    (tavily : String → List WebDoc) (loader : String → Nat → List WebDoc)
    (s : PlanningState) :
    (search_web oracle tavily s).2
        = [CallEvent.llmStructured (instrMsg :: s.messages),
           CallEvent.tavily (oracle (instrMsg :: s.messages)).query 3]
    ∧ (search_wikipedia oracle loader s).2
        = [CallEvent.llmStructured (instrMsg :: s.messages)]
    ∧ 1 ≤ ((search_web oracle tavily s).2.countP isStructuredLLMCall)
    ∧ 1 ≤ ((search_wikipedia oracle loader s).2.countP isStructuredLLMCall) := by
  refine ⟨rfl, rfl, ?_, ?_⟩ <;> simp [search_web, search_wikipedia,
    SearchQuery.getattrOpt, isStructuredLLMCall, List.countP_cons]

/-- C6 counterexample: the claim says the reasoning step builds its prompt
from an instruction preamble followed by the messages sequence.  The source
(lines 103-105) passes `msg_history = state["messages"]` alone: on the seeded
state below, the one LLM invocation the step performs receives `[userMsg0]`,
not `SEARCH_INSTRUCTIONS` followed by it. -/
theorem C6_prompt_lacks_preamble :
    (research_agent_events stubFinalLLM (initState [userMsg0])).2
        = [CallEvent.llmTools [userMsg0]]
    ∧ (research_agent_events stubFinalLLM (initState [userMsg0])).2
        ≠ [CallEvent.llmTools (instrMsg :: [userMsg0])] := by
  refine ⟨rfl, ?_⟩
  decide

/-- C6 (amended): for every conversation state, the reasoning step invokes
the tool-bound LLM exactly once, with the full messages sequence as the prompt
and no instruction preamble prepended, and executes no tool itself (its event
trace holds no search event); the messages channel is left untouched by the
step. -/
theorem C6_reasoning_single_llm_call (llm : List Msg → Msg) (s : PlanningState) :
    (research_agent_events llm s).2 = [CallEvent.llmTools s.messages]
    ∧ (research_agent_events llm s).2.length = 1
    ∧ (∀ e ∈ (research_agent_events llm s).2, isToolEvent e = false)
    ∧ (research_agent_events llm s).1.messages = s.messages := by
  refine ⟨rfl, rfl, ?_, rfl⟩
  intro e he
  simp [research_agent_events] at he
  subst he
  rfl

/-- C6 witness: the amended statement instantiated at the seeded state of
line 126 with a scripted final-answer LLM. -/
theorem C6_reasoning_single_llm_call_witness :
    (research_agent_events stubFinalLLM (initState [userMsg0])).2
        = [CallEvent.llmTools (initState [userMsg0]).messages] :=
  (C6_reasoning_single_llm_call stubFinalLLM (initState [userMsg0])).1

/-- C8 counterexample: the claim says the invocation returns the final text
together with the full message sequence and the projectPlan sequence.  The
graph is compiled with `output_schema=ResearchState` (line 110), so the
returned object is the projection onto the single `result` channel: the two
final states below differ in both `messages` and `project_plan` yet project to
the very same output — no message sequence or plan can be read off the
returned object. -/
theorem C8_output_drops_messages_and_plan :
    outputProjection finalStateA = outputProjection finalStateB
    ∧ finalStateA.messages ≠ finalStateB.messages
    ∧ finalStateA.project_plan ≠ finalStateB.project_plan := by
  refine ⟨rfl, ?_, ?_⟩ <;> decide

/-- C8 (amended): the invocation returns an object carrying only the `result`
channel (the reasoning node's last write): the output is a function of
`result` alone — two final states agreeing on `result` yield the same output
whatever their messages or plan — and the concrete invocation of line 126,
run with the scripted always-tools LLM, returns exactly the reply the
reasoning node wrote, nothing else. -/
theorem C8_output_result_only (s t : PlanningState) (h : s.result = t.result) :
    outputProjection s = outputProjection t
    ∧ invokeWorkflow alwaysToolsLLM stubRunTool 10 [userMsg0]
        = ResearchState.mk [alwaysToolsLLM [userMsg0]] := by
  constructor
  · simp [outputProjection, h]
  · rfl

/-- C8 witness: the amended statement at two concrete final states agreeing
on the result channel. -/
theorem C8_output_result_only_witness :
    outputProjection finalStateA = outputProjection finalStateB
    ∧ invokeWorkflow alwaysToolsLLM stubRunTool 10 [userMsg0]
        = ResearchState.mk [alwaysToolsLLM [userMsg0]] :=
  C8_output_result_only finalStateA finalStateB rfl

/-- mapping a function that fixes every element of a list fixes the list. -/
theorem map_id_of_eq {α : Type _} (f : α → α) :
    ∀ (l : List α), (∀ x ∈ l, f x = x) → l.map f = l
  | [], _ => rfl
  | a :: t, h => by
      rw [List.map_cons, h a (by simp),
        map_id_of_eq f t (fun x hx => h x (by simp [hx]))]

/-- folding over a list with a step that fixes the accumulator on every
element leaves the accumulator unchanged. -/
theorem foldl_fixed {α β : Type _} (f : α → β → α) (a : α) :
    ∀ (l : List β), (∀ b ∈ l, f a b = a) → l.foldl f a = a
  | [], _ => rfl
  | b :: t, h => by
      rw [List.foldl_cons, h b (by simp)]
      exact foldl_fixed f a t (fun x hx => h x (by simp [hx]))

/-- merging a message that is already present (ids pairwise distinct) is a
no-op: the replacement puts the identical message back in its place. -/
theorem upsert_mem_self (old : List Msg) (m : Msg)
    (hnd : old.Pairwise (fun a b => a.id ≠ b.id)) (hm : m ∈ old) :
    upsert old m = old := by
  have hsym : Symmetric (fun a b : Msg => a.id ≠ b.id) :=
    fun a b h hba => h hba.symm
  have hinj : ∀ x ∈ old, x.id = m.id → x = m := by
    intro x hx hid
    by_contra hne
    exact hnd.forall hsym hx hm hne hid
  have hany : old.any (fun x => x.id == m.id) = true :=
    List.any_eq_true.mpr ⟨m, hm, by simp⟩
  unfold upsert
  simp only [hany, if_true]
  apply map_id_of_eq
  intro x hx
  by_cases hid : x.id = m.id
  · rw [if_pos (by simpa using hid)]
    exact (hinj x hx hid).symm
  · rw [if_neg (by simpa using hid)]

/-- folding fresh messages (ids absent from the accumulator and pairwise
distinct) through the merge appends them in order. -/
theorem foldl_upsert_fresh :
    ∀ (docs acc : List Msg),
      (∀ x ∈ docs, ∀ m ∈ acc, x.id ≠ m.id) →
      docs.Pairwise (fun a b => a.id ≠ b.id) →
      docs.foldl upsert acc = acc ++ docs
  | [], acc, _, _ => by simp
  | d :: ds, acc, hfresh, hpw => by
      have hany : acc.any (fun x => x.id == d.id) = false := by
        apply List.any_eq_false.mpr
        intro x hx
        simp only [beq_iff_eq]
        exact fun h => hfresh d (by simp) x hx h.symm
      have hup : upsert acc d = acc ++ [d] := by
        unfold upsert
        simp [hany]
      have hfresh2 : ∀ x ∈ ds, ∀ m ∈ acc ++ [d], x.id ≠ m.id := by
        intro e he m hm
        rcases List.mem_append.mp hm with h1 | h2
        · exact hfresh e (by simp [he]) m h1
        · have hmd : m = d := by simpa using h2
          subst hmd
          exact fun hh => (List.pairwise_cons.mp hpw).1 e he hh.symm
      have hpw2 : ds.Pairwise (fun a b => a.id ≠ b.id) :=
        (List.pairwise_cons.mp hpw).2
      rw [List.foldl_cons, hup, foldl_upsert_fresh ds (acc ++ [d]) hfresh2 hpw2]
      simp

/-- the update the source tools return for the messages channel is the prior
history followed by the fresh documents (lines 65, 86); merging it through the
`add_messages` reducer reproduces exactly the prior history followed by the
documents: existing entries are replaced by themselves in place, the fresh
entries are appended. -/
theorem add_messages_append (old docs : List Msg)
    (hold : old.Pairwise (fun a b => a.id ≠ b.id))
    (hfresh : ∀ x ∈ docs, ∀ m ∈ old, x.id ≠ m.id)
    (hdocs : docs.Pairwise (fun a b => a.id ≠ b.id)) :
    add_messages old (old ++ docs) = old ++ docs := by
  unfold add_messages
  rw [List.foldl_append,
    foldl_fixed upsert old old (fun m hm => upsert_mem_self old m hold hm)]
  exact foldl_upsert_fresh docs old hfresh hdocs

/-- C5: the messages sequence is append-only.  Every transition of the graph
extends the messages channel by a (possibly empty) suffix — the reasoning node
leaves it untouched, the tool node appends its result documents, END is
absorbing — so no step deletes or reorders prior messages and the length never
decreases.  Moreover the update shape the source tools return for the channel,
the prior history followed by fresh documents (line 65), merges through the
`add_messages` reducer to exactly the prior history followed by those
documents, the prior entries untouched at their positions. -/
theorem C5_messages_append_only (llm : List Msg → Msg)
    (rt : ToolCall → PlanningState → String) (node : GraphNode)
    (s : PlanningState) (d : Nat) (docs : List Msg)
    (h1 : s.messages.Pairwise (fun a b => a.id ≠ b.id))
    (h2 : ∀ x ∈ docs, ∀ m ∈ s.messages, x.id ≠ m.id)
    (h3 : docs.Pairwise (fun a b => a.id ≠ b.id)) :
    (∃ suffix, ((graphStep llm rt (node, s, d)).2.1).messages = s.messages ++ suffix)
    ∧ add_messages s.messages (s.messages ++ docs) = s.messages ++ docs := by
  constructor
  · cases node with
    | research_agent =>
        exact ⟨[], by simp [graphStep, research_agent, research_agent_events]⟩
    | tools => exact ⟨_, rfl⟩
    | done => exact ⟨[], by simp [graphStep]⟩
  · exact add_messages_append s.messages docs h1 h2 h3

/-- C5 witness: the append-only property at the seeded state of line 126,
with one fresh tool document merged through the reducer. -/
theorem C5_messages_append_only_witness :
    (∃ suffix, ((graphStep alwaysToolsLLM stubRunTool
        (GraphNode.research_agent, initState [userMsg0], 0)).2.1).messages
        = (initState [userMsg0]).messages ++ suffix)
    ∧ add_messages (initState [userMsg0]).messages
        ((initState [userMsg0]).messages ++ [Msg.mk 7 "tool doc" []])
        = (initState [userMsg0]).messages ++ [Msg.mk 7 "tool doc" []] :=
  C5_messages_append_only alwaysToolsLLM stubRunTool GraphNode.research_agent
    (initState [userMsg0]) 0 [Msg.mk 7 "tool doc" []]
    (by decide) (by decide) (by decide)

end ToolAgent
